import Mathlib

/-!
Verification development for the AI Readiness Assessment validation harness
(Python scripts `security-validation.py`, `security-validation-simple.py`,
`accessibility-validation.py`, `performance-validation.py`,
`lighthouse-audit.py`).  Each Python routine relevant to the checked
properties is shallowly embedded as an executable Lean definition; the
environment the scripts observe (HTTP statuses, page contents, DOM counts,
subprocess outcomes) is passed in explicitly.
-/

namespace AiReadiness

/-! ## Rate-limit probe (`security-validation.py`, lines 41-61)

The script sends up to 35 POST requests; at the first response with status
429 it sets `triggered := true` and `requests_before_limit := i + 1` (where
`i` is the 0-based loop index of the triggering request) and breaks; if the
loop exhausts without a 429 it records `triggered := false` and leaves
`requests_before_limit` unset.  The environment is the list of response
statuses the server would return, in order. -/

structure RateLimitResult where
  triggered : Bool
  requests_before_limit : Option Nat
deriving DecidableEq, Repr

/-- 0-based index of the first status equal to 429, as discovered by the
request loop. -/
def firstIndex429 : List Nat → Option Nat
  | [] => none
  | s :: rest => if s = 429 then some 0 else (firstIndex429 rest).map (· + 1)

/-- The rate-limit probe of `test_security`: record `i + 1` at the first 429
(1-based index of the triggering request), else `triggered = false`. -/
def rateLimitProbe (statuses : List Nat) : RateLimitResult :=
  match firstIndex429 statuses with
  | some i => ⟨true, some (i + 1)⟩
  | none => ⟨false, none⟩

/-! ## Threshold classification (`performance-validation.py` lines 44-49 and
101-106, `lighthouse-audit.py` lines 65-74)

Times are in seconds / milliseconds, scores on the 0-100 scale after the
script multiplies the raw Lighthouse 0-1 score by 100.  Values are modelled
as rationals. -/

inductive Verdict where
  | pass
  | warn
  | fail
deriving DecidableEq, Repr

/-- Page-load-time classification: `< 3.0 s` pass, `< 5.0 s` warn, else fail. -/
def classifyLoadTime (t : ℚ) : Verdict :=
  if t < 3 then .pass else if t < 5 then .warn else .fail

/-- Average-interaction-latency classification: `< 100 ms` pass, `< 200 ms`
warn, else fail. -/
def classifyInteraction (a : ℚ) : Verdict :=
  if a < 100 then .pass else if a < 200 then .warn else .fail

/-- Lighthouse category-score classification on the 0-100 scale:
`≥ 90` pass ("EXCELLENT"), `≥ 70` warn ("GOOD"), else fail. -/
def classifyLighthouse (s : ℚ) : Verdict :=
  if s ≥ 90 then .pass else if s ≥ 70 then .warn else .fail

/-! ## Python substring membership

`needle in haystack` on Python strings, embedded over the character lists
of the Lean strings.  `pyIn` is the case-sensitive form; `pyInCI` lowercases
both sides first (as `kw.lower() in error_body.lower()` does). -/

/-- `charPrefix n h` holds when `n` is a prefix of `h`. -/
def charPrefix : List Char → List Char → Bool
  | [], _ => true
  | _ :: _, [] => false
  | a :: as, b :: bs => a = b && charPrefix as bs

/-- `charContains n h` holds when `n` occurs contiguously inside `h`. -/
def charContains (needle : List Char) : List Char → Bool
  | [] => needle.isEmpty
  | b :: bs => charPrefix needle (b :: bs) || charContains needle bs

/-- Python `needle in body` (case-sensitive). -/
def pyIn (needle body : String) : Bool :=
  charContains needle.data body.data

/-- Python `needle.lower() in body.lower()`. -/
def pyInCI (needle body : String) : Bool :=
  charContains (needle.data.map Char.toLower) (body.data.map Char.toLower)

/-! ## Error-leak probe (`security-validation.py` lines 143-157,
`security-validation-simple.py` lines 104-118)

Both scripts send a malformed body and, only when the response status is
`≥ 400`, filter a sensitive-keyword list by case-insensitive occurrence in
the response body.  The browser script's list has seven keywords; the
simple script's list adds `token`. -/

def sensitiveKeywordsFull : List String :=
  ["stack", "trace", "internal", "database", "password", "secret", "key"]

def sensitiveKeywordsSimple : List String :=
  ["stack", "trace", "internal", "database", "password", "secret", "key", "token"]

structure ErrorHandlingRecord where
  /-- `info_leak` is `None` in Python when no keyword matched, otherwise the
  list of matched keywords. -/
  info_leak : Option (List String)
  status_code : Nat
deriving DecidableEq, Repr

/-- The error-leak probe: nothing is recorded when `status < 400`; otherwise
the matched keywords are `[kw for kw in kws if kw.lower() in body.lower()]`
and `info_leak` is that list when nonempty, else `None`. -/
def errorLeakProbe (kws : List String) (status : Nat) (body : String) :
    Option ErrorHandlingRecord :=
  if 400 ≤ status then
    let leaked := kws.filter (fun kw => pyInCI kw body)
    some ⟨if leaked.isEmpty then none else some leaked, status⟩
  else none

/-! ## Prompt-injection probe (`security-validation.py` lines 109-132,
`security-validation-simple.py` lines 63-90)

The environment supplies, per attempt, the boolean detection signal the
script observes (browser script: an alert-role element appeared; simple
script: the response status was 400).  The browser script assigns
`results['prompt_injection']['detected']` inside the loop, overwriting it
on every attempt; the simple script counts detections. -/

/-- Browser script: the `detected` value left in the results dict after the
loop (`none` when there were no attempts, since the key is never set). -/
def injectionRecordedFull (outcomes : List Bool) : Option Bool :=
  outcomes.foldl (fun _ b => some b) none

structure InjectionRecordSimple where
  detected : Nat
  total_attempts : Nat
deriving DecidableEq, Repr

/-- Simple script: `detected_count` incremented per detected attempt, plus
the total number of attempts. -/
def injectionProbeSimple (outcomes : List Bool) : InjectionRecordSimple :=
  ⟨outcomes.foldl (fun acc b => if b then acc + 1 else acc) 0, outcomes.length⟩

/-! ## PII-leak probe (`security-validation.py` lines 74-104)

For each PII case the script fills the input, submits, reads
`page.content()` and records `sanitized` when the literal PII substring is
absent, else `not_sanitized` — there is no third value.  Any Playwright
exception raised while processing a case is not caught inside the loop: it
propagates to the outer handler (lines 179-181), which re-raises.  The
environment supplies, per case, either the rendered page content or an
exception. -/

inductive PiiVerdict where
  | sanitized
  | not_sanitized
deriving DecidableEq, Repr

/-- Verdict for one PII case given the rendered page content. -/
def piiVerdict (piiLiteral content : String) : PiiVerdict :=
  if pyIn piiLiteral content then .not_sanitized else .sanitized

/-- The PII loop over its cases: an exception in any case aborts the whole
probe (and, upstream, the whole run). -/
def piiProbe : List (String × Except Unit String) → Except Unit (List (String × PiiVerdict))
  | [] => .ok []
  | (_, .error e) :: _ => .error e
  | (lit, .ok content) :: rest =>
      (piiProbe rest).map (fun vs => (lit, piiVerdict lit content) :: vs)

/-! ## Run structure and report persistence of `test_security`
(`security-validation.py` lines 13-18 and 163-184)

The results dict is initialized with four top-level keys; the probe
sections run in order inside one `try`, and `json.dump` runs only after
all of them.  The `except` handler prints and re-raises without writing;
only `browser.close()` is in `finally`.  No top-level key is ever added or
removed during the run, so a persisted artifact has exactly the declared
keys.  The environment gives each section's outcome (its value, or the
exception it raised). -/

def securityDeclaredKeys : List String :=
  ["rate_limiting", "pii_sanitization", "prompt_injection", "error_handling"]

structure SecurityRunEnv where
  rateLimitSection : Except Unit RateLimitResult
  piiSection : Except Unit (List (String × PiiVerdict))
  injectionSection : Except Unit (Option Bool)
  errorLeakSection : Except Unit (Option ErrorHandlingRecord)

/-- Whether a probe section completed without raising. -/
def sectionOk {α : Type} : Except Unit α → Bool
  | .ok _ => true
  | .error _ => false

/-- Top-level keys of the artifact `test_security` persists, or `none` when
the run raised before reaching `json.dump`. -/
def securityPersistedKeys (env : SecurityRunEnv) : Option (List String) :=
  match env.rateLimitSection with
  | .error _ => none
  | .ok _ =>
    match env.piiSection with
    | .error _ => none
    | .ok _ =>
      match env.injectionSection with
      | .error _ => none
      | .ok _ =>
        match env.errorLeakSection with
        | .error _ => none
        | .ok _ => some securityDeclaredKeys

/-- Top-level keys of the artifact `test_security_apis`
(`security-validation-simple.py`) persists.  That script starts from an
empty dict and always reaches `json.dump` (line 138): every probe catches
its own request exceptions (lines 42-45, 84-85, 120-121) and never
re-raises.  `rate_limiting` (line 36 or 49), `pii_sanitization` (line 58)
and `prompt_injection` (line 87) are set unconditionally, in that order;
`error_handling` (line 113 or 116) is set only when the malformed-request
POST completed with status `≥ 400` (line 104).  The argument is that
probe's outcome: the response status, or `none` when the request raised. -/
def simplePersistedKeys (malformedStatus : Option Nat) : List String :=
  ["rate_limiting", "pii_sanitization", "prompt_injection"] ++
    match malformedStatus with
    | some st => if 400 ≤ st then ["error_handling"] else []
    | none => []

/-! ## Focus census (`accessibility-validation.py` lines 40-58)

The script presses Tab 10 times, after each press evaluates the active
element's tag/role/aria-label/type, and appends the descriptor to
`focusable_elements`.  It prints the number of distinct descriptors but
stores `len(focusable_elements)` as
`results['keyboard_navigation']['focusable_count']`.  The environment maps
the press number (0-based) to the descriptor observed after that press. -/

structure FocusDescriptor where
  tag : String
  role : Option String
  ariaLabel : Option String
  typeAttr : Option String
deriving DecidableEq, Repr

/-- The list `focusable_elements` after the 10 presses. -/
def focusCensus (activeAfterPress : Nat → FocusDescriptor) : List FocusDescriptor :=
  (List.range 10).map activeAfterPress

/-- The stored metric: `len(focusable_elements)`. -/
def focusable_count (descs : List FocusDescriptor) : Nat := descs.length

/-- The printed figure: `len(set(str(e) for e in focusable_elements))`. -/
def distinctDescriptorCount (descs : List FocusDescriptor) : Nat :=
  descs.dedup.length

/-! ## Report persistence as file-system operations
(`security-validation.py` lines 163-164, `performance-validation.py` lines
128-129, `accessibility-validation.py` lines 201-202)

Each script persists its results with `open(path, 'w')` + `json.dump` — a
single direct write to the artifact path.  The write step is embedded as
the trace of file-system operations it performs. -/

inductive FsOp where
  | write (path content : String)
  | rename (src dst : String)
deriving DecidableEq, Repr

/-- Trace of the scripts' save step: one direct write to the artifact. -/
def saveResultsOps (path content : String) : List FsOp :=
  [.write path content]

/-- Stated from the spec's words, for comparison: the trace writes the
serialized content to a distinct temporary path and then renames it onto
the artifact path. -/
def atomicTempRename (ops : List FsOp) (artifact : String) : Prop :=
  ∃ tmp content, tmp ≠ artifact ∧ ops = [.write tmp content, .rename tmp artifact]

/-! ## DOM semantic/ARIA census (`accessibility-validation.py` lines 84-115)

For each selector in two fixed tables the script records
`page.locator(sel).count()` — a pure read of page state; nothing in the
census mutates the page.  The page is embedded as its selector-count
observation function, and the census as a state-passing read returning the
counts and the (unchanged) page. -/

structure PageState where
  count : String → Nat

def ariaSelectors : List String :=
  ["textarea[aria-label]", "button[aria-label]", "main[role=\"main\"]",
   "[role=\"article\"]", "[role=\"dialog\"]", "[role=\"alert\"]"]

def semanticSelectors : List String :=
  ["main", "header", "button", "article, [role=\"article\"]"]

/-- One census pass: per-selector counts plus the page state afterwards. -/
def domCensus (selectors : List String) (page : PageState) :
    List (String × Nat) × PageState :=
  (selectors.map (fun sel => (sel, page.count sel)), page)

/-! ## Lighthouse audit driver (`lighthouse-audit.py` lines 9-91)

Outcomes of the two `subprocess.run` calls, the report-file existence
check, and the `json.load` parse are supplied by the environment.
`run_lighthouse_audit` returns a `Bool` on every path — the embedding is a
total function, mirroring that every anticipated exception is caught.
A `timedOut`/`otherError` outcome of the version check falls into the
generic `except Exception` branch, which warns and proceeds to the audit;
a `fileNotFound` there returns `False` immediately. -/

inductive SubprocOutcome where
  | completed (exitCode : Int)
  | timedOut
  | fileNotFound
  | otherError
deriving DecidableEq, Repr

structure LighthouseEnv where
  versionCheck : SubprocOutcome
  auditRun : SubprocOutcome
  reportExists : Bool
  /-- `some cats` when the report file parses, `none` when `json.load`
  would raise; scores are the raw 0-1 category scores. -/
  parsedCategories : Option (List (String × ℚ))

/-- The audit phase: the big `try` from the `subprocess.run` of the audit
to the report parse, with its `except TimeoutExpired` and `except Exception`
handlers both returning `False`. -/
def lighthouseAuditPhase (env : LighthouseEnv) : Bool :=
  match env.auditRun with
  | .completed rc =>
    if rc ≠ 0 then false
    else if env.reportExists then
      match env.parsedCategories with
      | some _ => true
      | none => false
    else false
  | .timedOut => false
  | .fileNotFound => false
  | .otherError => false

/-- `run_lighthouse_audit`: version check, then the audit phase. -/
def run_lighthouse_audit (env : LighthouseEnv) : Bool :=
  match env.versionCheck with
  | .completed rc => if rc ≠ 0 then false else lighthouseAuditPhase env
  | .fileNotFound => false
  | .timedOut => lighthouseAuditPhase env
  | .otherError => lighthouseAuditPhase env

end AiReadiness

namespace AiReadiness

/-! ### Theorems -/

/-- C1, as claimed, is false: with a limit of 30, statuses accepting 30
requests and returning 429 at 1-based request 31, the probe records
`requests_before_limit = 31` (the index of the 429 itself), not the
claimed 30. -/
theorem rateLimit_claim_counterexample :
    rateLimitProbe (List.replicate 30 200 ++ [429, 200, 200, 200, 200])
      = ⟨true, some 31⟩ ∧
    rateLimitProbe (List.replicate 30 200 ++ [429, 200, 200, 200, 200])
      ≠ ⟨true, some 30⟩ := by
  constructor <;> decide

/-- C1 (amended): when the first 429 occurs at 1-based request index `k`
after `k - 1` accepted requests, the probe records `triggered = true` and
`requests_before_limit = k` (the 1-based index of the triggering request,
one more than the number of accepted requests); if no 429 occurs at all,
it records `triggered = false` with no count. -/
theorem rateLimit_records_trigger_index :
    (∀ (pre post : List Nat), 429 ∉ pre →
      rateLimitProbe (pre ++ 429 :: post) = ⟨true, some (pre.length + 1)⟩) ∧
    (∀ statuses : List Nat, 429 ∉ statuses →
      rateLimitProbe statuses = ⟨false, none⟩) := by
  have hidx : ∀ (pre post : List Nat), 429 ∉ pre →
      firstIndex429 (pre ++ 429 :: post) = some pre.length := by
    intro pre
    induction pre with
    | nil => intro post _; simp [firstIndex429]
    | cons s rest ih =>
      intro post h
      have hs : s ≠ 429 := fun hc => h (by simp [hc])
      have hrest : 429 ∉ rest := fun hc => h (List.mem_cons_of_mem _ hc)
      simp [firstIndex429, hs, ih post hrest]
  have hnone : ∀ statuses : List Nat, 429 ∉ statuses →
      firstIndex429 statuses = none := by
    intro statuses
    induction statuses with
    | nil => intro _; rfl
    | cons s rest ih =>
      intro h
      have hs : s ≠ 429 := fun hc => h (by simp [hc])
      have hrest : 429 ∉ rest := fun hc => h (List.mem_cons_of_mem _ hc)
      simp [firstIndex429, hs, ih hrest]
  constructor
  · intro pre post h
    simp [rateLimitProbe, hidx pre post h]
  · intro statuses h
    simp [rateLimitProbe, hnone statuses h]

/-- Witness for the amended C1 at concrete inputs: two accepted requests
then a 429 records `some 3`; an all-200 run records `triggered = false`. -/
theorem rateLimit_records_trigger_index_witness :
    rateLimitProbe ([200, 200] ++ 429 :: [200]) = ⟨true, some 3⟩ ∧
    rateLimitProbe [200, 200, 200] = ⟨false, none⟩ :=
  ⟨rateLimit_records_trigger_index.1 [200, 200] [200] (by decide),
   rateLimit_records_trigger_index.2 [200, 200, 200] (by decide)⟩

/-- C4, as claimed, is false for the browser script: its keyword list lacks
`token`, so a status-400 body consisting of the word `token` — a member of
the claimed eight-keyword list — is not flagged (`info_leak = None`),
whereas the simple script's list does flag it. -/
theorem errorLeak_claim_counterexample :
    errorLeakProbe sensitiveKeywordsFull 400 "token" = some ⟨none, 400⟩ ∧
    errorLeakProbe sensitiveKeywordsSimple 400 "token" = some ⟨some ["token"], 400⟩ ∧
    "token" ∈ sensitiveKeywordsSimple ∧ "token" ∉ sensitiveKeywordsFull := by
  refine ⟨by decide, by decide, by decide, by decide⟩

/-- C4 (amended): the browser script's error-leak probe inspects the body
only when the status is `≥ 400`, flags leakage iff the body contains a
case-insensitive occurrence of a term of its seven-keyword list
`stack, trace, internal, database, password, secret, key` (the simple
script additionally checks `token`), and lists exactly the matched
keywords. -/
theorem errorLeak_behavior (status : Nat) (body : String) :
    (status < 400 → errorLeakProbe sensitiveKeywordsFull status body = none) ∧
    (∀ r, errorLeakProbe sensitiveKeywordsFull status body = some r →
      400 ≤ status ∧ r.status_code = status ∧
      ((∃ l, r.info_leak = some l) ↔
        ∃ kw ∈ sensitiveKeywordsFull, pyInCI kw body = true) ∧
      (∀ l, r.info_leak = some l →
        ∀ kw, kw ∈ l ↔ kw ∈ sensitiveKeywordsFull ∧ pyInCI kw body = true)) := by
  have hmem : ∀ kw, kw ∈ sensitiveKeywordsFull.filter (fun kw => pyInCI kw body) ↔
      kw ∈ sensitiveKeywordsFull ∧ pyInCI kw body = true := fun _ => List.mem_filter
  constructor
  · intro hlt
    rw [errorLeakProbe, if_neg (by omega)]
  · intro r hr
    have hst : 400 ≤ status := by
      by_contra hc
      rw [errorLeakProbe, if_neg hc] at hr
      exact Option.noConfusion hr
    rw [errorLeakProbe, if_pos hst] at hr
    have hr' := Option.some.inj hr
    refine ⟨hst, ?_, ?_, ?_⟩
    · rw [← hr']
    · rw [← hr']
      by_cases hemp : (sensitiveKeywordsFull.filter (fun kw => pyInCI kw body)).isEmpty
      · have hnil : sensitiveKeywordsFull.filter (fun kw => pyInCI kw body) = [] :=
          List.isEmpty_iff.mp hemp
        rw [if_pos hemp]
        constructor
        · rintro ⟨l, hl⟩; exact Option.noConfusion hl
        · rintro ⟨kw, hkw, hocc⟩
          have hk := (hmem kw).mpr ⟨hkw, hocc⟩
          rw [hnil] at hk
          exact absurd hk (List.not_mem_nil kw)
      · have hne : sensitiveKeywordsFull.filter (fun kw => pyInCI kw body) ≠ [] :=
          fun hc => hemp (by rw [hc]; rfl)
        rw [if_neg hemp]
        constructor
        · intro _
          rcases List.exists_mem_of_ne_nil _ hne with ⟨kw, hkw⟩
          rcases (hmem kw).mp hkw with ⟨hk1, hk2⟩
          exact ⟨kw, hk1, hk2⟩
        · intro _
          exact ⟨_, rfl⟩
    · intro l hl kw
      rw [← hr'] at hl
      by_cases hemp : (sensitiveKeywordsFull.filter (fun kw => pyInCI kw body)).isEmpty
      · rw [if_pos hemp] at hl
        exact Option.noConfusion hl
      · rw [if_neg hemp] at hl
        have hl' := Option.some.inj hl
        rw [← hl']
        exact hmem kw

/-- Witness for `errorLeak_behavior` at concrete inputs: status 200 records
nothing; status 400 with body `A database KEY error` records status 400 and
exactly the matched keywords `database` and `key`. -/
theorem errorLeak_behavior_witness :
    errorLeakProbe sensitiveKeywordsFull 200 "A database KEY error" = none ∧
    (400 ≤ 400 ∧ (ErrorHandlingRecord.mk (some ["database", "key"]) 400).status_code = 400 ∧
      ((∃ l, (ErrorHandlingRecord.mk (some ["database", "key"]) 400).info_leak = some l) ↔
        ∃ kw ∈ sensitiveKeywordsFull, pyInCI kw "A database KEY error" = true) ∧
      (∀ l, (ErrorHandlingRecord.mk (some ["database", "key"]) 400).info_leak = some l →
        ∀ kw, kw ∈ l ↔ kw ∈ sensitiveKeywordsFull ∧ pyInCI kw "A database KEY error" = true)) :=
  ⟨(errorLeak_behavior 200 "A database KEY error").1 (by decide),
   (errorLeak_behavior 400 "A database KEY error").2
     ⟨some ["database", "key"], 400⟩ (by decide)⟩

/-- C5, as claimed, is false for the browser script: its probe overwrites a
single `detected` boolean per attempt, so a run detecting the first two of
three attempts records exactly what an all-undetected run records —
`detected = false` — and no detected/attempted ratio; the simple script
does record the ratio 2/3. -/
theorem injection_claim_counterexample :
    injectionRecordedFull [true, true, false] = some false ∧
    injectionRecordedFull [true, true, false] =
      injectionRecordedFull [false, false, false] ∧
    injectionProbeSimple [true, true, false] = ⟨2, 3⟩ := by
  refine ⟨rfl, rfl, rfl⟩

/-- C5 (amended): the simple script records a detected/attempted ratio over
all attempts (`detected_count` = number of detected attempts,
`total_attempts` = number of attempts); the browser script instead records
a single boolean equal to the outcome of the last attempt. -/
theorem injection_recording (outcomes : List Bool) :
    injectionRecordedFull outcomes = outcomes.getLast? ∧
    (injectionProbeSimple outcomes).detected = outcomes.count true ∧
    (injectionProbeSimple outcomes).total_attempts = outcomes.length := by
  refine ⟨?_, ?_, rfl⟩
  · have key : ∀ (l : List Bool) (init : Option Bool),
        l.foldl (fun _ b => some b) init =
          match l.getLast? with
          | some x => some x
          | none => init := by
      intro l
      induction l with
      | nil => intro init; rfl
      | cons b bs ih =>
        intro init
        rw [List.foldl_cons, ih (some b)]
        cases hbs : bs.getLast? with
        | some x =>
          have : (b :: bs).getLast? = some x := by
            cases bs with
            | nil => simp at hbs
            | cons c cs => rw [List.getLast?_cons_cons, hbs]
          rw [this]
        | none =>
          have hnil : bs = [] := by
            cases bs with
            | nil => rfl
            | cons c cs => simp [List.getLast?] at hbs
          subst hnil
          rfl
    rw [injectionRecordedFull, key outcomes none]
    cases outcomes.getLast? <;> rfl
  · have key : ∀ (l : List Bool) (n : Nat),
        l.foldl (fun acc b => if b then acc + 1 else acc) n = n + l.count true := by
      intro l
      induction l with
      | nil => intro n; simp
      | cons b bs ih =>
        intro n
        rw [List.foldl_cons, ih]
        cases b <;> simp [List.count_cons]
        omega
    have := key outcomes 0
    simpa [injectionProbeSimple] using this

/-- C6, as claimed, is false: a Playwright exception while processing the
phone case escapes the probe entirely — no `error` verdict (nor any other)
is recorded for that category, refuting the tri-state with a contained
error case. -/
theorem pii_claim_counterexample :
    piiProbe [("john.doe@example.com", Except.ok "Thanks, your message was received"),
              ("555-123-4567", Except.error ())] = Except.error () := rfl

/-- C6 (amended): when every PII case yields page content, the probe
records, per category, `sanitized` exactly when the literal PII substring
is absent from the rendered content and `not_sanitized` when it is present
(a binary verdict); an exception while checking a case propagates out of
the probe instead of being recorded as an `error` verdict. -/
theorem pii_verdicts (cases : List (String × String)) :
    piiProbe (cases.map (fun p => (p.1, Except.ok p.2))) =
      Except.ok (cases.map (fun p => (p.1, piiVerdict p.1 p.2))) ∧
    (∀ lit content, piiVerdict lit content = .sanitized ↔ pyIn lit content = false) ∧
    (∀ (pre : List (String × String)) (lit : String)
        (rest : List (String × Except Unit String)),
      piiProbe (pre.map (fun p => (p.1, Except.ok p.2)) ++ (lit, Except.error ()) :: rest) =
        Except.error ()) := by
  refine ⟨?_, ?_, ?_⟩
  · induction cases with
    | nil => rfl
    | cons c cs ih =>
      obtain ⟨lit, content⟩ := c
      simp only [List.map_cons, piiProbe, ih, Except.map]
  · intro lit content
    rw [piiVerdict]
    cases h : pyIn lit content <;> simp [h]
  · intro pre lit rest
    induction pre with
    | nil => rfl
    | cons c cs ih =>
      obtain ⟨l, content⟩ := c
      have step : piiProbe ((l, Except.ok content) ::
            (cs.map (fun p => (p.1, Except.ok p.2)) ++ (lit, Except.error ()) :: rest)) =
          (piiProbe (cs.map (fun p => (p.1, Except.ok p.2)) ++
            (lit, Except.error ()) :: rest)).map
            (fun vs => (l, piiVerdict l content) :: vs) := rfl
      rw [List.map_cons, List.cons_append, step, ih]
      rfl

/-- C8: the static threshold tables.  Load time `t`: pass iff `t < 3.0 s`,
warn iff `3.0 ≤ t < 5.0`, fail iff `5.0 ≤ t`.  Average interaction latency
`a`: pass iff `a < 100 ms`, warn iff `100 ≤ a < 200`, fail iff `200 ≤ a`.
Lighthouse score `s` (0-100): pass iff `s ≥ 90`, warn iff `70 ≤ s < 90`,
fail iff `s < 70`. -/
theorem threshold_tables (t a s : ℚ) :
    (classifyLoadTime t = .pass ↔ t < 3) ∧
    (classifyLoadTime t = .warn ↔ 3 ≤ t ∧ t < 5) ∧
    (classifyLoadTime t = .fail ↔ 5 ≤ t) ∧
    (classifyInteraction a = .pass ↔ a < 100) ∧
    (classifyInteraction a = .warn ↔ 100 ≤ a ∧ a < 200) ∧
    (classifyInteraction a = .fail ↔ 200 ≤ a) ∧
    (classifyLighthouse s = .pass ↔ 90 ≤ s) ∧
    (classifyLighthouse s = .warn ↔ 70 ≤ s ∧ s < 90) ∧
    (classifyLighthouse s = .fail ↔ s < 70) := by
  unfold classifyLoadTime classifyInteraction classifyLighthouse
  refine ⟨?_, ?_, ?_, ?_, ?_, ?_, ?_, ?_, ?_⟩ <;>
    split_ifs with h1 h2 <;>
    simp_all <;> linarith

/-- C2, as claimed, is false for both cited scripts: in a `test_security`
run whose PII section raises, the exception propagates past `json.dump`,
so no report artifact is persisted at all; and in a `test_security_apis`
run whose malformed-request probe raises, a report is persisted but it
lacks the declared top-level key `error_handling`. -/
theorem security_report_claim_counterexample :
    securityPersistedKeys
      ⟨Except.ok ⟨true, some 31⟩, Except.error (), Except.ok none, Except.ok none⟩
      = none ∧
    simplePersistedKeys none =
      ["rate_limiting", "pii_sanitization", "prompt_injection"] ∧
    "error_handling" ∉ simplePersistedKeys none := by
  refine ⟨rfl, rfl, by decide⟩

/-- C2 (amended): `test_security` persists a report artifact only for runs
in which no probe section raised — then its top-level keys are exactly the
four declared ones — and a run with a raising section persists nothing
(the exception is re-raised after logging).  `test_security_apis` contains
its probes' exceptions and always persists a report, but that report's
keys are not fixed: `rate_limiting`, `pii_sanitization` and
`prompt_injection` are always present, while `error_handling` is present
iff the malformed-request probe completed with status `≥ 400`. -/
theorem security_report_keys (env : SecurityRunEnv) (malformedStatus : Option Nat) :
    (sectionOk env.rateLimitSection = true → sectionOk env.piiSection = true →
      sectionOk env.injectionSection = true → sectionOk env.errorLeakSection = true →
      securityPersistedKeys env = some securityDeclaredKeys) ∧
    (∀ keys, securityPersistedKeys env = some keys → keys = securityDeclaredKeys) ∧
    ("rate_limiting" ∈ simplePersistedKeys malformedStatus ∧
     "pii_sanitization" ∈ simplePersistedKeys malformedStatus ∧
     "prompt_injection" ∈ simplePersistedKeys malformedStatus) ∧
    ("error_handling" ∈ simplePersistedKeys malformedStatus ↔
      ∃ st, malformedStatus = some st ∧ 400 ≤ st) := by
  have hsimple :
      ("rate_limiting" ∈ simplePersistedKeys malformedStatus ∧
       "pii_sanitization" ∈ simplePersistedKeys malformedStatus ∧
       "prompt_injection" ∈ simplePersistedKeys malformedStatus) ∧
      ("error_handling" ∈ simplePersistedKeys malformedStatus ↔
        ∃ st, malformedStatus = some st ∧ 400 ≤ st) := by
    cases malformedStatus with
    | none => simp [simplePersistedKeys]
    | some st =>
      by_cases h : 400 ≤ st
      · simp [simplePersistedKeys, h]
      · simp [simplePersistedKeys, h]
  refine ⟨?_, ?_, hsimple.1, hsimple.2⟩
  · obtain ⟨rl, pii, inj, el⟩ := env
    cases rl <;> cases pii <;> cases inj <;> cases el <;>
      first
        | (intro h1 h2 h3 h4; rfl)
        | (intro h1 h2 h3 h4; exact Bool.noConfusion h1)
        | (intro h1 h2 h3 h4; exact Bool.noConfusion h2)
        | (intro h1 h2 h3 h4; exact Bool.noConfusion h3)
        | (intro h1 h2 h3 h4; exact Bool.noConfusion h4)
  · obtain ⟨rl, pii, inj, el⟩ := env
    cases rl <;> cases pii <;> cases inj <;> cases el <;>
      first
        | (intro keys hk; exact Option.noConfusion hk)
        | (intro keys hk; exact (Option.some.inj hk).symm)

/-- Witness for `security_report_keys`: a `test_security` run with all four
sections completing persists an artifact with exactly the declared keys,
and a `test_security_apis` run whose malformed-request probe got status 400
persists the `error_handling` key. -/
theorem security_report_keys_witness :
    securityPersistedKeys
      ⟨Except.ok ⟨true, some 31⟩, Except.ok [], Except.ok none, Except.ok none⟩
      = some securityDeclaredKeys ∧
    "error_handling" ∈ simplePersistedKeys (some 400) :=
  ⟨(security_report_keys
      ⟨Except.ok ⟨true, some 31⟩, Except.ok [], Except.ok none, Except.ok none⟩
      (some 400)).1 rfl rfl rfl rfl,
   (security_report_keys
      ⟨Except.ok ⟨true, some 31⟩, Except.ok [], Except.ok none, Except.ok none⟩
      (some 400)).2.2.2.mpr ⟨400, rfl, by decide⟩⟩

/-- C3, as claimed, is false: a page on which every Tab press lands on the
same element yields 1 distinct descriptor across the 10 presses, yet the
stored `focusable_count` is 10 — the number of presses, not the number of
distinct descriptors. -/
theorem focus_count_claim_counterexample :
    focusable_count (focusCensus (fun _ => ⟨"BODY", none, none, none⟩)) = 10 ∧
    distinctDescriptorCount (focusCensus (fun _ => ⟨"BODY", none, none, none⟩)) = 1 ∧
    focusable_count (focusCensus (fun _ => ⟨"BODY", none, none, none⟩)) ≠
      distinctDescriptorCount (focusCensus (fun _ => ⟨"BODY", none, none, none⟩)) := by
  refine ⟨rfl, by decide, by decide⟩

/-- C3 (amended): the focus census presses Tab exactly 10 times and records
the active element's descriptor after each press, but the stored
`focusable_count` metric equals the number of presses (always 10); the
count of distinct descriptors (at most 10) is only printed to the console,
never stored. -/
theorem focus_count_is_press_count (activeAfterPress : Nat → FocusDescriptor) :
    focusable_count (focusCensus activeAfterPress) = 10 ∧
    distinctDescriptorCount (focusCensus activeAfterPress) ≤
      focusable_count (focusCensus activeAfterPress) := by
  constructor
  · rw [focusable_count, focusCensus, List.length_map, List.length_range]
  · exact (List.dedup_sublist _).length_le

/-- C7, as claimed, is false: the save step of `test_security` performs a
single direct write to the artifact path — it is not a write to a
temporary path followed by a rename. -/
theorem report_write_claim_counterexample :
    ¬ atomicTempRename
        (saveResultsOps "ai-readiness-assessment/security-results.json" "serialized-report")
        "ai-readiness-assessment/security-results.json" := by
  rintro ⟨tmp, content, hne, heq⟩
  exact absurd (congrArg List.length heq) (by simp [saveResultsOps])

/-- C7 (amended): the report is written by opening the artifact path
directly and dumping the JSON into it — the operation trace contains no
rename and is not of the write-temp-then-rename shape, so the write is not
atomic with respect to the artifact file. -/
theorem report_write_direct (path content : String) :
    (∀ op ∈ saveResultsOps path content, ∀ src dst, op ≠ FsOp.rename src dst) ∧
    ¬ atomicTempRename (saveResultsOps path content) path := by
  constructor
  · intro op hop src dst
    rcases List.mem_singleton.mp hop with rfl
    intro hc
    exact FsOp.noConfusion hc
  · rintro ⟨tmp, c, hne, heq⟩
    exact absurd (congrArg List.length heq) (by simp [saveResultsOps])

/-- Witness for `report_write_direct`: the single operation of the concrete
save step is a write, not a rename. -/
theorem report_write_direct_witness :
    FsOp.write "security-results.json" "serialized" ≠ FsOp.rename "a" "b" :=
  (report_write_direct "security-results.json" "serialized").1
    (FsOp.write "security-results.json" "serialized")
    (List.mem_singleton.mpr rfl) "a" "b"

/-- C9: the semantic/ARIA census is a pure read — it leaves the page state
unchanged, and running it twice on the same page yields identical counts
for every selector category, for both selector tables. -/
theorem dom_census_idempotent (page : PageState) :
    (domCensus ariaSelectors page).2 = page ∧
    (domCensus semanticSelectors page).2 = page ∧
    (domCensus ariaSelectors ((domCensus ariaSelectors page).2)).1 =
      (domCensus ariaSelectors page).1 ∧
    (domCensus semanticSelectors ((domCensus semanticSelectors page).2)).1 =
      (domCensus semanticSelectors page).1 :=
  ⟨rfl, rfl, rfl, rfl⟩

/-- C10: `run_lighthouse_audit` is total over its anticipated failure modes
(the embedding is a total function — every handler returns): it returns
`False` when the CLI is absent, when either subprocess exits nonzero, when
the audit times out, when the report file is missing, and when the report
does not parse; it returns `True` exactly when the version gate lets the
audit run, the audit exits 0, the report file exists, and its categories
parse. -/
theorem lighthouse_error_handling (env : LighthouseEnv) :
    (env.versionCheck = .fileNotFound → run_lighthouse_audit env = false) ∧
    (∀ rc, env.versionCheck = .completed rc → rc ≠ 0 →
      run_lighthouse_audit env = false) ∧
    (env.auditRun = .timedOut → run_lighthouse_audit env = false) ∧
    (∀ rc, env.auditRun = .completed rc → rc ≠ 0 →
      run_lighthouse_audit env = false) ∧
    (env.reportExists = false → run_lighthouse_audit env = false) ∧
    (env.parsedCategories = none → run_lighthouse_audit env = false) ∧
    (run_lighthouse_audit env = true ↔
      ((env.versionCheck = .completed 0 ∨ env.versionCheck = .timedOut ∨
          env.versionCheck = .otherError) ∧
        env.auditRun = .completed 0 ∧ env.reportExists = true ∧
        env.parsedCategories ≠ none)) := by
  obtain ⟨v, a, re, pc⟩ := env
  cases v <;> cases a <;> cases re <;> cases pc <;>
    simp [run_lighthouse_audit, lighthouseAuditPhase] <;> simp_all

/-- Witness for `lighthouse_error_handling`: a fully successful environment
returns `True`; an absent CLI returns `False`. -/
theorem lighthouse_error_handling_witness :
    run_lighthouse_audit
      ⟨.completed 0, .completed 0, true, some [("performance", 95)]⟩ = true ∧
    run_lighthouse_audit
      ⟨.fileNotFound, .completed 0, true, some [("performance", 95)]⟩ = false :=
  ⟨(lighthouse_error_handling _).2.2.2.2.2.2.mpr
      ⟨Or.inl rfl, rfl, rfl, fun h => Option.noConfusion h⟩,
   (lighthouse_error_handling _).1 rfl⟩

end AiReadiness
